import Mathlib

/-!
Shallow embedding of the chapter-cache / fetch-coordination layer of the
ai_novel reading front-end, together with the reader-side retry state
machine and the preload scheduler.

The embedding mirrors the TypeScript source:

* the `Chapter` and `Novel` records come from `types.ts`;
* `generateChapterContent` (the fetch coordinator) is split at its
  suspension points into a synchronous start phase
  (`generateChapterContentStart`: API-key guard, cache check,
  deduplication check, registration of the shared pending promise) and a
  settlement phase (`generateChapterContentSettleOps` /
  `generateChapterContentSettle`: the map mutations that run when the
  adapter call settles, in source order — `chapterCache.set` in the `try`
  block, then `activeRequests.delete` in the `finally` block);
* the per-caller promise outcomes are `originatorResult` (the caller that
  created the request, whose `try/catch` converts a rejection into a
  sentinel chapter) and `joinerResult` (a deduplicated caller, which
  returns the shared promise directly, with no catch);
* `preloadChapter` / `processQueue` are the preload scheduler; a started
  task runs synchronously up to the first `await`, which executes the
  start phase of `generateChapterContent` before the caller regains
  control;
* `loadChapterStep` is one run of the `loadChapter` effect in the Reader
  component: the validity check on the resolved chapter, the auto-switch
  (retry) branch, and the `finally` block, with React state reads modelled
  as the values captured when the effect run began.

Asynchronous adapter results are passed in explicitly; machine integers do
not occur (all counters are small naturals).  JavaScript string `.length`
counts UTF-16 code units, which coincides with the code-point count used
here for all strings the program manipulates (BMP characters only).
-/

namespace AiNovel

/-- The `Chapter` record from `types.ts`. -/
structure Chapter where
  id : String
  title : String
  content : String
  number : Nat
deriving Repr, DecidableEq

/-- Category enum of `Novel` in `types.ts`. -/
inductive NovelCategory where
  | urban
  | historical
  | fantasy
  | other
deriving Repr, DecidableEq

/-- Status enum of `Novel` in `types.ts`. -/
inductive NovelStatus where
  | ongoing
  | completed
deriving Repr, DecidableEq

/-- The `Novel` record from `types.ts`.  `rating` is a JavaScript number
(0–10); it is carried around untouched by everything modelled here, so it
is embedded as an integer. -/
structure Novel where
  id : String
  title : String
  author : String
  category : NovelCategory
  description : String
  coverUrl : String
  tags : List String
  status : NovelStatus
  rating : Int
deriving Repr, DecidableEq

/-- `PLACEHOLDER_IMGS` from the service module. -/
def PLACEHOLDER_IMGS : List String :=
  ["https://picsum.photos/300/400?random=1",
   "https://picsum.photos/300/400?random=2",
   "https://picsum.photos/300/400?random=3",
   "https://picsum.photos/300/400?random=4",
   "https://picsum.photos/300/400?random=5"]

/-- `item` at position `index` receives `PLACEHOLDER_IMGS[index % PLACEHOLDER_IMGS.length]`
as its cover (the index is always in range, so the default is never used). -/
def withPlaceholderCover (index : Nat) (n : Novel) : Novel :=
  { n with coverUrl := PLACEHOLDER_IMGS.getD (index % PLACEHOLDER_IMGS.length) "" }

/-- `searchNovels(query)`: with no API key it returns `[]` at once; otherwise
the external generation call either yields a parsed list of novels (the JSON
transport is the external collaborator, abstracted into `adapterResult`) that
is decorated with placeholder covers, or throws, in which case the `catch`
returns `[]`. -/
def searchNovels (apiKey : String) (query : String)
    (adapterResult : Except String (List Novel)) : List Novel :=
  if apiKey = "" then []
  else
    match query, adapterResult with
    | _, .ok items => (items.enum).map (fun p => withPlaceholderCover p.1 p.2)
    | _, .error _ => []

/-- The `'Urban' | 'Historical'` parameter type of `getRankings`. -/
inductive RankCategory where
  | urban
  | historical
deriving Repr, DecidableEq

/-- `getRankings(category)`: with no API key it returns `[]` at once;
otherwise the external call is abstracted exactly as in `searchNovels`. -/
def getRankings (apiKey : String) (category : RankCategory)
    (adapterResult : Except String (List Novel)) : List Novel :=
  if apiKey = "" then []
  else
    match category, adapterResult with
    | _, .ok items => (items.enum).map (fun p => withPlaceholderCover p.1 p.2)
    | _, .error _ => []

/-- Association-list embedding of the JavaScript `Map.get`: first (unique)
binding of the key, if any. -/
def mapGet? : List (String × Chapter) → String → Option Chapter
  | [], _ => none
  | (a, b) :: t, k => if a == k then some b else mapGet? t k

/-- `Map.has`. -/
def mapHas (m : List (String × Chapter)) (k : String) : Bool :=
  (mapGet? m k).isSome

/-- `Map.set`: replace the binding in place if the key is present, else
append (JavaScript maps preserve insertion order). -/
def mapSet : List (String × Chapter) → String → Chapter → List (String × Chapter)
  | [], k, v => [(k, v)]
  | (a, b) :: t, k, v => if a == k then (k, v) :: t else (a, b) :: mapSet t k v

/-- `activeRequests.has(key)` on the in-flight key set. -/
def inflightHas : List String → String → Bool
  | [], _ => false
  | a :: t, k => if a == k then true else inflightHas t k

/-- `activeRequests.delete(key)`. -/
def inflightRemove : List String → String → List String
  | [], _ => []
  | a :: t, k => if a == k then inflightRemove t k else a :: inflightRemove t k

/-- The two module-level maps of the coordinator: `chapterCache` maps keys to
completed chapters, `activeRequests` holds the keys with a shared pending
promise (the promise itself is modelled by the settlement functions below). -/
structure CoordState where
  chapterCache : List (String × Chapter)
  activeRequests : List String
deriving Repr, DecidableEq

/-- The cache / deduplication key: `` `${novelTitle}-${chapterIndex}` ``. -/
def chapterKey (novelTitle : String) (chapterIndex : Nat) : String :=
  novelTitle ++ "-" ++ toString chapterIndex

/-- The sentinel chapter returned immediately when the API key is missing. -/
def apiKeyMissingChapter : Chapter :=
  { id := "error", title := "Error", content := "API Key missing or error.", number := 1 }

/-- The sentinel chapter the originating caller's `catch` returns when the
shared request promise rejects. -/
def generationFailedChapter (chapterIndex : Nat) : Chapter :=
  { id := "error", title := "生成失败",
    content := "无法生成章节内容，请检查网络后重试。",
    number := chapterIndex + 1 }

/-- What a call to `generateChapterContent` does synchronously, before any
suspension: return the missing-key sentinel, hit the cache, join an existing
in-flight request, or start a new one (which registers the shared promise in
`activeRequests` and is the only branch that invokes the content generator
adapter). -/
inductive StartResult where
  | noApiKey (c : Chapter)
  | cacheHit (c : Chapter)
  | joined
  | started
deriving Repr, DecidableEq

/-- The adapter is called exactly on the `started` branch. -/
def adapterInvoked : StartResult → Bool
  | .started => true
  | _ => false

/-- Synchronous start phase of `generateChapterContent`: the API-key guard,
the cache check, the pending-request check, and — for a fresh key — the
registration of the new shared promise (appended, preserving insertion
order) together with the adapter invocation. -/
def generateChapterContentStart (apiKey novelTitle : String) (chapterIndex : Nat)
    (s : CoordState) : StartResult × CoordState :=
  if apiKey = "" then (.noApiKey apiKeyMissingChapter, s)
  else
    match mapGet? s.chapterCache (chapterKey novelTitle chapterIndex) with
    | some c => (.cacheHit c, s)
    | none =>
      if inflightHas s.activeRequests (chapterKey novelTitle chapterIndex) then
        (.joined, s)
      else
        (.started,
          { s with activeRequests :=
              s.activeRequests ++ [chapterKey novelTitle chapterIndex] })

/-- Outcome of the adapter call for one chapter: the raw generated text, or a
thrown error. -/
inductive AdapterResult where
  | ok (text : String)
  | error (e : String)
deriving Repr, DecidableEq

/-- JavaScript `\s` for the characters that occur here. -/
def jsSpace (c : Char) : Bool :=
  c == ' ' || c == '\t' || c == '\n' || c == '\r'

/-- `title.replace(/^#+\s*/, '')`: the regex is anchored and requires at
least one leading hash, so the replacement fires only on titles starting
with `#`. -/
def stripLeadingHashes (t : String) : String :=
  match t.toList with
  | '#' :: _ => String.mk ((t.toList.dropWhile (fun c => c == '#')).dropWhile jsSpace)
  | _ => t

/-- `text.split('\n')` on the character list: the same semantics as the
JavaScript split (the empty string yields one empty segment, a trailing
newline yields a trailing empty segment). -/
def splitNewlineChars : List Char → List (List Char)
  | [] => [[]]
  | c :: t =>
      match splitNewlineChars t, c == '\n' with
      | r, true => [] :: r
      | [], false => [[c]]
      | h :: t', false => (c :: h) :: t'

/-- `text.split('\n')`. -/
def jsSplitNewline (text : String) : List String :=
  (splitNewlineChars text.toList).map String.mk

/-- `lines.join('\n')`. -/
def joinWithNewline : List String → String
  | [] => ""
  | [x] => x
  | x :: (y :: xs) => x ++ "\n" ++ joinWithNewline (y :: xs)

/-- Construction of the `Chapter` from the raw generated text: split on
newlines, first line is the title (or the default `` `第 N 章` `` when the
first line is empty, since the empty string is falsy), the remaining lines
re-joined are the content. -/
def parseChapter (novelTitle : String) (chapterIndex : Nat) (text : String) : Chapter :=
  let lines := jsSplitNewline text
  let title :=
    if lines.headD "" = "" then "第 " ++ toString (chapterIndex + 1) ++ " 章"
    else lines.headD ""
  { id := chapterKey novelTitle chapterIndex,
    title := stripLeadingHashes title,
    content := joinWithNewline lines.tail,
    number := chapterIndex + 1 }

/-- Primitive mutations of the two coordinator maps. -/
inductive MapOp where
  | setCache (k : String) (c : Chapter)
  | delInflight (k : String)
deriving Repr, DecidableEq

/-- Apply one primitive map mutation. -/
def applyOp (s : CoordState) : MapOp → CoordState
  | .setCache k c => { s with chapterCache := mapSet s.chapterCache k c }
  | .delInflight k => { s with activeRequests := inflightRemove s.activeRequests k }

/-- The map mutations performed when the inner request promise settles, in
source order.  On success the `try` block runs `chapterCache.set(key, chapter)`
and then the `finally` block runs `activeRequests.delete(key)`; on error the
`catch` rethrows and only the `finally` delete runs (the cache is not
touched). -/
def generateChapterContentSettleOps (novelTitle : String) (chapterIndex : Nat) :
    AdapterResult → List MapOp
  | .ok text =>
      [.setCache (chapterKey novelTitle chapterIndex)
         (parseChapter novelTitle chapterIndex text),
       .delInflight (chapterKey novelTitle chapterIndex)]
  | .error _ => [.delInflight (chapterKey novelTitle chapterIndex)]

/-- Coordinator state after the settlement mutations have all run. -/
def generateChapterContentSettle (novelTitle : String) (chapterIndex : Nat)
    (r : AdapterResult) (s : CoordState) : CoordState :=
  (generateChapterContentSettleOps novelTitle chapterIndex r).foldl applyOp s

/-- What one caller of `generateChapterContent` ultimately observes: its
promise resolves with a chapter or rejects with the propagated error. -/
inductive CallerResult where
  | resolved (c : Chapter)
  | rejected (e : String)
deriving Repr, DecidableEq

/-- Outcome for a deduplicated caller, which returns the shared promise
directly (no `catch`): it adopts the settlement as-is. -/
def joinerResult (novelTitle : String) (chapterIndex : Nat) :
    AdapterResult → CallerResult
  | .ok text => .resolved (parseChapter novelTitle chapterIndex text)
  | .error e => .rejected e

/-- Outcome for the caller that created the request: it awaits the shared
promise inside `try { return await requestPromise } catch`, so a rejection is
converted into the resolved `generationFailedChapter` sentinel. -/
def originatorResult (novelTitle : String) (chapterIndex : Nat) :
    AdapterResult → CallerResult
  | .ok text => .resolved (parseChapter novelTitle chapterIndex text)
  | .error _ => .resolved (generationFailedChapter chapterIndex)

/-- `CONCURRENCY_LIMIT` of the preload worker pool. -/
def CONCURRENCY_LIMIT : Nat := 3

/-- Scheduler state: the coordinator maps, the FIFO `preloadQueue` (each
queued task captures the novel title and chapter index it will fetch), and
the `activeWorkers` counter. -/
structure SchedState where
  coord : CoordState
  preloadQueue : List (String × Nat)
  activeWorkers : Nat
deriving Repr, DecidableEq

/-- `processQueue()`: return if the queue is empty or the pool is full;
otherwise shift the front task, increment `activeWorkers`, and start the
task.  A started task runs synchronously up to its first `await`, which
executes the start phase of `generateChapterContent` on the coordinator
maps before control returns. -/
def processQueue (apiKey : String) (s : SchedState) : SchedState :=
  match s.preloadQueue with
  | [] => s
  | t :: rest =>
      if CONCURRENCY_LIMIT ≤ s.activeWorkers then s
      else
        { coord := (generateChapterContentStart apiKey t.1 t.2 s.coord).2,
          preloadQueue := rest,
          activeWorkers := s.activeWorkers + 1 }

/-- `preloadChapter(novelTitle, chapterIndex)`: skip when the key is already
cached or in flight; otherwise push a task wrapping `generateChapterContent`
(errors swallowed by the task's own `catch`) and run `processQueue`. -/
def preloadChapter (apiKey novelTitle : String) (chapterIndex : Nat)
    (s : SchedState) : SchedState :=
  if mapHas s.coord.chapterCache (chapterKey novelTitle chapterIndex)
      || inflightHas s.coord.activeRequests (chapterKey novelTitle chapterIndex) then s
  else
    processQueue apiKey
      { s with preloadQueue := s.preloadQueue ++ [(novelTitle, chapterIndex)] }

/-- The `finally` of a started task: decrement `activeWorkers` and run
`processQueue` again. -/
def taskComplete (apiKey : String) (s : SchedState) : SchedState :=
  processQueue apiKey { s with activeWorkers := s.activeWorkers - 1 }

/-- Interleaved system steps: a `preloadChapter` call, the completion of a
running preload task, the synchronous start phase of a foreground
`generateChapterContent` call (never guarded by the worker pool), or the
settlement of an in-flight request. -/
inductive SchedStep (apiKey : String) : SchedState → SchedState → Prop
  | preload (novelTitle : String) (chapterIndex : Nat) (s : SchedState) :
      SchedStep apiKey s (preloadChapter apiKey novelTitle chapterIndex s)
  | complete (s : SchedState) (h : 1 ≤ s.activeWorkers) :
      SchedStep apiKey s (taskComplete apiKey s)
  | fgFetch (novelTitle : String) (chapterIndex : Nat) (s : SchedState) :
      SchedStep apiKey s
        { s with coord := (generateChapterContentStart apiKey novelTitle chapterIndex s.coord).2 }
  | settle (novelTitle : String) (chapterIndex : Nat) (r : AdapterResult) (s : SchedState) :
      SchedStep apiKey s
        { s with coord := generateChapterContentSettle novelTitle chapterIndex r s.coord }

/-- Module-load state: empty maps, empty queue, no active workers. -/
def initSchedState : SchedState :=
  { coord := { chapterCache := [], activeRequests := [] },
    preloadQueue := [],
    activeWorkers := 0 }

/-- Reader component state driving the retry machine: `retryCount`,
`isAutoSwitching`, `currentSourceName`, the displayed `chapter`, and the
`loading` flag. -/
structure ReaderState where
  retryCount : Nat
  isAutoSwitching : Bool
  currentSourceName : String
  chapter : Option Chapter
  loading : Bool
deriving Repr, DecidableEq

/-- Initial state of a reader session: `useState` initial values, with
`currentSourceName` defaulting to `智能优选源` when the `sourceName` prop is
absent (empty). -/
def initialReaderState (sourceName : String) : ReaderState :=
  { retryCount := 0,
    isAutoSwitching := false,
    currentSourceName := if sourceName = "" then "智能优选源" else sourceName,
    chapter := none,
    loading := true }

/-- The resolved-chapter validity check of `loadChapter`:
`data.id === 'error' || data.content.length < 50` throws. -/
def contentLoadFailed (d : Chapter) : Bool :=
  d.id == "error" || decide (d.content.length < 50)

/-- What one fetch attempt of the reader observes: `generateChapterContent`
resolved with a chapter, or rejected (a joined caller adopting a failed
shared promise rejects; see `joinerResult`). -/
inductive FetchOutcome where
  | success (d : Chapter)
  | reject (e : String)
deriving Repr, DecidableEq

/-- An attempt counts as failed exactly when the `catch` of `loadChapter`
runs: the awaited call rejected, or the resolved chapter fails
`contentLoadFailed`. -/
def attemptFails : FetchOutcome → Bool
  | .success d => contentLoadFailed d
  | .reject _ => true

/-- The `catch` branch of `loadChapter` (the auto-switch logic): while
`retryCount < 3`, enter switching state, increment the count and set the
incrementing source label; otherwise clear the chapter (final failure) and
stop switching. -/
def autoSwitchBranch (s : ReaderState) : ReaderState :=
  if s.retryCount < 3 then
    { s with isAutoSwitching := true,
             retryCount := s.retryCount + 1,
             currentSourceName := "备用线路 " ++ toString (s.retryCount + 1) }
  else
    { s with chapter := none, isAutoSwitching := false }

/-- The backoff before the fetch of an effect run:
`if (retryCount > 0) await delay(1500)`. -/
def preFetchDelayMs (s : ReaderState) : Nat :=
  if 0 < s.retryCount then 1500 else 0

/-- One run of the `loadChapter` effect, given the outcome `r` of its awaited
fetch.  `setLoading(true)` runs first; on a valid chapter it is stored and
switching stops; on a failed attempt the auto-switch branch runs.  The
`finally` block reads the closure-captured values from the start of the run
(`s0`), not the freshly set ones, to decide whether to clear `loading`. -/
def loadChapterStep (s0 : ReaderState) (r : FetchOutcome) : ReaderState :=
  let s1 : ReaderState := { s0 with loading := true }
  let s2 : ReaderState :=
    match r with
    | .success d =>
        if contentLoadFailed d then autoSwitchBranch s1
        else { s1 with chapter := some d, isAutoSwitching := false }
    | .reject _ => autoSwitchBranch s1
  if 3 ≤ s0.retryCount ∨ (s0.isAutoSwitching = false ∧ s0.chapter.isSome) then
    { s2 with loading := false }
  else s2

/-- The effect's dependency array is `[novel.title, chapterIndex, retryCount]`;
within one session the first two are fixed, so a new automatic fetch attempt
is issued after a run exactly when the run changed `retryCount`. -/
def triggersNextAttempt (s0 s1 : ReaderState) : Prop :=
  s0.retryCount ≠ s1.retryCount

/-! Helper lemmas about the map embeddings and the phases of the
coordinator. -/

theorem mapGet?_mapSet_self (m : List (String × Chapter)) (k : String) (v : Chapter) :
    mapGet? (mapSet m k v) k = some v := by
  induction m with
  | nil => simp [mapSet, mapGet?]
  | cons a t ih =>
      by_cases h : a.1 == k
      · simp [mapSet, mapGet?, h]
      · simp [mapSet, mapGet?, h, ih]

theorem mapHas_mapSet_self (m : List (String × Chapter)) (k : String) (v : Chapter) :
    mapHas (mapSet m k v) k = true := by
  simp [mapHas, mapGet?_mapSet_self]

theorem mapHas_false_iff (m : List (String × Chapter)) (k : String) :
    mapHas m k = false ↔ mapGet? m k = none := by
  unfold mapHas
  cases mapGet? m k <;> simp

theorem inflightHas_append_self (l : List String) (k : String) :
    inflightHas (l ++ [k]) k = true := by
  induction l with
  | nil => simp [inflightHas]
  | cons a t ih =>
      by_cases h : a == k
      · simp [inflightHas, h]
      · simpa [inflightHas, h] using ih

theorem inflightHas_remove_self (l : List String) (k : String) :
    inflightHas (inflightRemove l k) k = false := by
  induction l with
  | nil => simp [inflightRemove, inflightHas]
  | cons a t ih =>
      by_cases h : a == k
      · simpa [inflightRemove, h] using ih
      · simpa [inflightRemove, inflightHas, h] using ih

theorem start_noApiKey (novelTitle : String) (chapterIndex : Nat) (s : CoordState) :
    generateChapterContentStart "" novelTitle chapterIndex s
      = (.noApiKey apiKeyMissingChapter, s) := by
  simp [generateChapterContentStart]

theorem start_cacheHit (apiKey novelTitle : String) (chapterIndex : Nat)
    (s : CoordState) (c : Chapter) (hkey : apiKey ≠ "")
    (h : mapGet? s.chapterCache (chapterKey novelTitle chapterIndex) = some c) :
    generateChapterContentStart apiKey novelTitle chapterIndex s = (.cacheHit c, s) := by
  unfold generateChapterContentStart
  rw [if_neg hkey, h]

theorem start_joined (apiKey novelTitle : String) (chapterIndex : Nat)
    (s : CoordState) (hkey : apiKey ≠ "")
    (hc : mapGet? s.chapterCache (chapterKey novelTitle chapterIndex) = none)
    (hi : inflightHas s.activeRequests (chapterKey novelTitle chapterIndex) = true) :
    generateChapterContentStart apiKey novelTitle chapterIndex s = (.joined, s) := by
  unfold generateChapterContentStart
  rw [if_neg hkey, hc]
  simp [hi]

theorem start_new (apiKey novelTitle : String) (chapterIndex : Nat)
    (s : CoordState) (hkey : apiKey ≠ "")
    (hc : mapGet? s.chapterCache (chapterKey novelTitle chapterIndex) = none)
    (hi : inflightHas s.activeRequests (chapterKey novelTitle chapterIndex) = false) :
    generateChapterContentStart apiKey novelTitle chapterIndex s
      = (.started,
         { s with activeRequests :=
             s.activeRequests ++ [chapterKey novelTitle chapterIndex] }) := by
  unfold generateChapterContentStart
  rw [if_neg hkey, hc]
  simp [hi]

theorem settle_ok_eq (novelTitle : String) (chapterIndex : Nat) (text : String)
    (s : CoordState) :
    generateChapterContentSettle novelTitle chapterIndex (.ok text) s
      = { chapterCache :=
            mapSet s.chapterCache (chapterKey novelTitle chapterIndex)
              (parseChapter novelTitle chapterIndex text),
          activeRequests :=
            inflightRemove s.activeRequests (chapterKey novelTitle chapterIndex) } := rfl

theorem settle_error_eq (novelTitle : String) (chapterIndex : Nat) (e : String)
    (s : CoordState) :
    generateChapterContentSettle novelTitle chapterIndex (.error e) s
      = { chapterCache := s.chapterCache,
          activeRequests :=
            inflightRemove s.activeRequests (chapterKey novelTitle chapterIndex) } := rfl

theorem loadChapterStep_fail (s : ReaderState) (r : FetchOutcome)
    (h : attemptFails r = true) :
    loadChapterStep s r
      = (if 3 ≤ s.retryCount ∨ (s.isAutoSwitching = false ∧ s.chapter.isSome) then
           { autoSwitchBranch { s with loading := true } with loading := false }
         else autoSwitchBranch { s with loading := true }) := by
  cases r with
  | success d =>
      simp only [attemptFails] at h
      simp [loadChapterStep, h]
  | reject e => simp [loadChapterStep]

theorem processQueue_workers_le (apiKey : String) (s : SchedState)
    (h : s.activeWorkers ≤ CONCURRENCY_LIMIT) :
    (processQueue apiKey s).activeWorkers ≤ CONCURRENCY_LIMIT := by
  unfold processQueue
  match s.preloadQueue with
  | [] => exact h
  | t :: rest =>
      by_cases hw : CONCURRENCY_LIMIT ≤ s.activeWorkers
      · simpa [hw] using h
      · simp only [if_neg hw]
        simp only [CONCURRENCY_LIMIT] at hw ⊢
        omega

/-! Claim theorems. -/

/-- Claim C10: with the API key absent (empty), `generateChapterContent`
returns at once the resolved sentinel chapter
`(id := error, title := Error, content := API Key missing or error., number := 1)`
for every input, leaving the cache and in-flight maps untouched and never
invoking the adapter, and under the same condition `searchNovels` and
`getRankings` return the empty list. -/
theorem missing_api_key_sentinel (novelTitle : String) (chapterIndex : Nat)
    (s : CoordState) (query : String) (r1 r2 : Except String (List Novel))
    (cat : RankCategory) :
    generateChapterContentStart "" novelTitle chapterIndex s
      = (.noApiKey { id := "error", title := "Error",
                     content := "API Key missing or error.", number := 1 }, s) ∧
    adapterInvoked (generateChapterContentStart "" novelTitle chapterIndex s).1 = false ∧
    searchNovels "" query r1 = [] ∧
    getRankings "" cat r2 = [] := by
  refine ⟨start_noApiKey novelTitle chapterIndex s, ?_, by simp [searchNovels],
    by simp [getRankings]⟩
  rw [start_noApiKey]
  rfl

/-- Claim C5: once a fetch for a key has succeeded, the parsed payload sits in
the cache, and a subsequent call for the same key returns exactly that cached
payload with the coordinator state unchanged (so the result is a fixpoint and
every further call behaves identically), without invoking the adapter again —
the adapter call count for the key stays at 1. -/
theorem cached_after_success_no_reinvocation (apiKey novelTitle : String)
    (chapterIndex : Nat) (text : String) (s : CoordState) (hkey : apiKey ≠ "") :
    mapGet? (generateChapterContentSettle novelTitle chapterIndex (.ok text) s).chapterCache
        (chapterKey novelTitle chapterIndex)
      = some (parseChapter novelTitle chapterIndex text) ∧
    generateChapterContentStart apiKey novelTitle chapterIndex
        (generateChapterContentSettle novelTitle chapterIndex (.ok text) s)
      = (.cacheHit (parseChapter novelTitle chapterIndex text),
         generateChapterContentSettle novelTitle chapterIndex (.ok text) s) ∧
    adapterInvoked (generateChapterContentStart apiKey novelTitle chapterIndex
        (generateChapterContentSettle novelTitle chapterIndex (.ok text) s)).1
      = false := by
  have hget : mapGet?
      (generateChapterContentSettle novelTitle chapterIndex (.ok text) s).chapterCache
      (chapterKey novelTitle chapterIndex)
      = some (parseChapter novelTitle chapterIndex text) := by
    rw [settle_ok_eq]
    exact mapGet?_mapSet_self _ _ _
  have hstart := start_cacheHit apiKey novelTitle chapterIndex _ _ hkey hget
  exact ⟨hget, hstart, by rw [hstart]; rfl⟩

/-- Witness for C5 at a concrete input. -/
theorem cached_after_success_no_reinvocation_witness :
    mapGet? (generateChapterContentSettle "N" 0 (.ok "T\nB") ⟨[], ["N-0"]⟩).chapterCache
        (chapterKey "N" 0)
      = some (parseChapter "N" 0 "T\nB") ∧
    generateChapterContentStart "k" "N" 0
        (generateChapterContentSettle "N" 0 (.ok "T\nB") ⟨[], ["N-0"]⟩)
      = (.cacheHit (parseChapter "N" 0 "T\nB"),
         generateChapterContentSettle "N" 0 (.ok "T\nB") ⟨[], ["N-0"]⟩) ∧
    adapterInvoked (generateChapterContentStart "k" "N" 0
        (generateChapterContentSettle "N" 0 (.ok "T\nB") ⟨[], ["N-0"]⟩)).1 = false :=
  cached_after_success_no_reinvocation "k" "N" 0 "T\nB" ⟨[], ["N-0"]⟩ (by decide)

/-- Claim C6: after a failed fetch the key is neither cached nor in flight
(the `finally` removed it from `activeRequests` and the `catch` rethrew
without caching), so the next call for the key reaches the fresh-request
branch and issues a new adapter invocation — failures are not negatively
cached. -/
theorem failure_leaves_key_retryable (apiKey novelTitle : String) (chapterIndex : Nat)
    (e : String) (s : CoordState) (hkey : apiKey ≠ "")
    (hc : mapGet? s.chapterCache (chapterKey novelTitle chapterIndex) = none) :
    mapGet? (generateChapterContentSettle novelTitle chapterIndex (.error e) s).chapterCache
        (chapterKey novelTitle chapterIndex) = none ∧
    inflightHas
        (generateChapterContentSettle novelTitle chapterIndex (.error e) s).activeRequests
        (chapterKey novelTitle chapterIndex) = false ∧
    (generateChapterContentStart apiKey novelTitle chapterIndex
        (generateChapterContentSettle novelTitle chapterIndex (.error e) s)).1
      = .started ∧
    adapterInvoked (generateChapterContentStart apiKey novelTitle chapterIndex
        (generateChapterContentSettle novelTitle chapterIndex (.error e) s)).1
      = true := by
  have h1 : mapGet?
      (generateChapterContentSettle novelTitle chapterIndex (.error e) s).chapterCache
      (chapterKey novelTitle chapterIndex) = none := by
    rw [settle_error_eq]
    exact hc
  have h2 : inflightHas
      (generateChapterContentSettle novelTitle chapterIndex (.error e) s).activeRequests
      (chapterKey novelTitle chapterIndex) = false := by
    rw [settle_error_eq]
    exact inflightHas_remove_self _ _
  have h3 := start_new apiKey novelTitle chapterIndex _ hkey h1 h2
  exact ⟨h1, h2, by rw [h3], by rw [h3]; rfl⟩

/-- Witness for C6 at a concrete input. -/
theorem failure_leaves_key_retryable_witness :
    mapGet? (generateChapterContentSettle "N" 0 (.error "quota") ⟨[], ["N-0"]⟩).chapterCache
        (chapterKey "N" 0) = none ∧
    inflightHas
        (generateChapterContentSettle "N" 0 (.error "quota") ⟨[], ["N-0"]⟩).activeRequests
        (chapterKey "N" 0) = false ∧
    (generateChapterContentStart "k" "N" 0
        (generateChapterContentSettle "N" 0 (.error "quota") ⟨[], ["N-0"]⟩)).1
      = .started ∧
    adapterInvoked (generateChapterContentStart "k" "N" 0
        (generateChapterContentSettle "N" 0 (.error "quota") ⟨[], ["N-0"]⟩)).1
      = true :=
  failure_leaves_key_retryable "k" "N" 0 "quota" ⟨[], ["N-0"]⟩ (by decide) (by decide)

/-- Counterexample to claim C1 as stated: two callers of the same in-flight
request do not observe the same outcome when the adapter fails.  With the
adapter rejecting with error `network`, the originating caller's `catch`
resolves it with the `generationFailedChapter` sentinel, while a joined
caller (which returned the shared promise with no catch) is rejected with
the raw error — so it is false that all callers either resolve identically
or reject identically.  The surrounding conjuncts show this situation is
reached: from an empty coordinator the first call starts the single request
and the second joins it. -/
theorem failure_outcomes_diverge_cex :
    generateChapterContentStart "k" "NovelA" 0 ⟨[], []⟩
      = (.started, ⟨[], ["NovelA-0"]⟩) ∧
    generateChapterContentStart "k" "NovelA" 0 ⟨[], ["NovelA-0"]⟩
      = (.joined, ⟨[], ["NovelA-0"]⟩) ∧
    originatorResult "NovelA" 0 (.error "network")
      = .resolved (generationFailedChapter 0) ∧
    joinerResult "NovelA" 0 (.error "network") = .rejected "network" ∧
    originatorResult "NovelA" 0 (.error "network")
      ≠ joinerResult "NovelA" 0 (.error "network") := by
  refine ⟨by decide, by decide, rfl, rfl, by decide⟩

/-- Claim C1 as amended: for a fresh key, the first of N concurrent callers
invokes the adapter and every further concurrent caller joins the registered
request without a new invocation (the joined call leaves the state unchanged,
so any number of concurrent callers join the same single invocation — the
adapter runs exactly once).  On success all callers resolve with the
identical parsed payload; on failure the joined callers are rejected with the
identical propagated error, while the originating caller instead resolves
with the `generationFailedChapter` sentinel (its `catch` swallows the
rejection). -/
theorem dedup_single_invocation_outcomes (apiKey novelTitle : String)
    (chapterIndex : Nat) (s : CoordState) (text e : String) (hkey : apiKey ≠ "")
    (hc : mapGet? s.chapterCache (chapterKey novelTitle chapterIndex) = none)
    (hi : inflightHas s.activeRequests (chapterKey novelTitle chapterIndex) = false) :
    adapterInvoked (generateChapterContentStart apiKey novelTitle chapterIndex s).1
      = true ∧
    generateChapterContentStart apiKey novelTitle chapterIndex
        (generateChapterContentStart apiKey novelTitle chapterIndex s).2
      = (.joined, (generateChapterContentStart apiKey novelTitle chapterIndex s).2) ∧
    originatorResult novelTitle chapterIndex (.ok text)
      = .resolved (parseChapter novelTitle chapterIndex text) ∧
    joinerResult novelTitle chapterIndex (.ok text)
      = .resolved (parseChapter novelTitle chapterIndex text) ∧
    joinerResult novelTitle chapterIndex (.error e) = .rejected e ∧
    originatorResult novelTitle chapterIndex (.error e)
      = .resolved (generationFailedChapter chapterIndex) := by
  have hstart := start_new apiKey novelTitle chapterIndex s hkey hc hi
  refine ⟨by rw [hstart]; rfl, ?_, rfl, rfl, rfl, rfl⟩
  rw [hstart]
  exact start_joined apiKey novelTitle chapterIndex _ hkey hc
    (inflightHas_append_self _ _)

/-- Witness for the amended C1 at a concrete input. -/
theorem dedup_single_invocation_outcomes_witness :
    adapterInvoked (generateChapterContentStart "k" "N" 0 ⟨[], []⟩).1 = true ∧
    generateChapterContentStart "k" "N" 0
        (generateChapterContentStart "k" "N" 0 ⟨[], []⟩).2
      = (.joined, (generateChapterContentStart "k" "N" 0 ⟨[], []⟩).2) ∧
    originatorResult "N" 0 (.ok "T\nB") = .resolved (parseChapter "N" 0 "T\nB") ∧
    joinerResult "N" 0 (.ok "T\nB") = .resolved (parseChapter "N" 0 "T\nB") ∧
    joinerResult "N" 0 (.error "err") = .rejected "err" ∧
    originatorResult "N" 0 (.error "err") = .resolved (generationFailedChapter 0) :=
  dedup_single_invocation_outcomes "k" "N" 0 ⟨[], []⟩ "T\nB" "err" (by decide)
    (by decide) (by decide)

/-- Counterexample to claim C2 as stated: a successful adapter payload whose
body is below the 50-character threshold is nevertheless written to the cache
by the coordinator, and a joined caller resolves with it rather than being
rejected.  The generated text parses to a chapter whose content `short` has
length 5 < 50, yet after settlement the key is cached and the joiner's
outcome is `resolved`. -/
theorem short_payload_cached_cex :
    (parseChapter "NovelA" 0 "第1章 测试\nshort").content.length < 50 ∧
    mapHas (generateChapterContentSettle "NovelA" 0 (.ok "第1章 测试\nshort")
        ⟨[], ["NovelA-0"]⟩).chapterCache "NovelA-0" = true ∧
    inflightHas (generateChapterContentSettle "NovelA" 0 (.ok "第1章 测试\nshort")
        ⟨[], ["NovelA-0"]⟩).activeRequests "NovelA-0" = false ∧
    joinerResult "NovelA" 0 (.ok "第1章 测试\nshort")
      = .resolved (parseChapter "NovelA" 0 "第1章 测试\nshort") := by
  refine ⟨by decide, by decide, by decide, rfl⟩

/-- Claim C2 as amended: the coordinator performs no minimum-length
validation at all — every successful adapter payload is parsed, written to
the cache and handed, resolved, to all callers (joined callers included).
The minimum-content check lives one layer up, in the reader's `loadChapter`,
which treats a resolved chapter with body length below 50 as a failed
attempt for the retry state machine. -/
theorem no_coordinator_validation_reader_checks (novelTitle : String)
    (chapterIndex : Nat) (text : String) (s : CoordState) (d : Chapter)
    (hd : d.content.length < 50) :
    mapGet? (generateChapterContentSettle novelTitle chapterIndex (.ok text) s).chapterCache
        (chapterKey novelTitle chapterIndex)
      = some (parseChapter novelTitle chapterIndex text) ∧
    joinerResult novelTitle chapterIndex (.ok text)
      = .resolved (parseChapter novelTitle chapterIndex text) ∧
    originatorResult novelTitle chapterIndex (.ok text)
      = .resolved (parseChapter novelTitle chapterIndex text) ∧
    attemptFails (.success d) = true := by
  refine ⟨?_, rfl, rfl, ?_⟩
  · rw [settle_ok_eq]
    exact mapGet?_mapSet_self _ _ _
  · simp [attemptFails, contentLoadFailed, hd]

/-- Witness for the amended C2 at a concrete input. -/
theorem no_coordinator_validation_reader_checks_witness :
    mapGet? (generateChapterContentSettle "N" 0 (.ok "T\nshort") ⟨[], ["N-0"]⟩).chapterCache
        (chapterKey "N" 0)
      = some (parseChapter "N" 0 "T\nshort") ∧
    joinerResult "N" 0 (.ok "T\nshort") = .resolved (parseChapter "N" 0 "T\nshort") ∧
    originatorResult "N" 0 (.ok "T\nshort") = .resolved (parseChapter "N" 0 "T\nshort") ∧
    attemptFails (.success { id := "N-0", title := "T", content := "short", number := 1 })
      = true :=
  no_coordinator_validation_reader_checks "N" 0 "T\nshort" ⟨[], ["N-0"]⟩
    { id := "N-0", title := "T", content := "short", number := 1 } (by decide)

/-- Counterexample to claim C3 as stated: after exactly three consecutive
fetch failures the session has NOT reached final failure — it is still in
the auto-switching (retrying) state, and the third failing run incremented
`retryCount` from 2 to 3, which re-triggers the effect and so issues a
fourth automatic fetch attempt. -/
theorem three_failures_not_final_cex :
    (loadChapterStep (loadChapterStep (loadChapterStep
        (initialReaderState "智能优选源") (.reject "e1")) (.reject "e2"))
        (.reject "e3")).isAutoSwitching = true ∧
    (loadChapterStep (loadChapterStep (initialReaderState "智能优选源")
        (.reject "e1")) (.reject "e2")).retryCount = 2 ∧
    (loadChapterStep (loadChapterStep (loadChapterStep
        (initialReaderState "智能优选源") (.reject "e1")) (.reject "e2"))
        (.reject "e3")).retryCount = 3 ∧
    triggersNextAttempt
      (loadChapterStep (loadChapterStep (initialReaderState "智能优选源")
        (.reject "e1")) (.reject "e2"))
      (loadChapterStep (loadChapterStep (loadChapterStep
        (initialReaderState "智能优选源") (.reject "e1")) (.reject "e2"))
        (.reject "e3")) := by
  refine ⟨by decide, by decide, by decide, by unfold triggersNextAttempt; decide⟩

/-- Claim C3 as amended: the retry guard is `retryCount < 3` and the effect
re-runs whenever `retryCount` changes, so a session tolerates three failing
automatic retries after the initial attempt: after three consecutive
failures the session is still retrying (`isAutoSwitching` set, a fourth
automatic fetch issued); only after the fourth consecutive failure does it
reach final failure — chapter cleared, switching stopped, loading cleared —
and `retryCount` no longer changes, so no fifth automatic attempt is ever
issued. -/
theorem four_failures_final_failure (sourceName : String)
    (r1 r2 r3 r4 : FetchOutcome)
    (h1 : attemptFails r1 = true) (h2 : attemptFails r2 = true)
    (h3 : attemptFails r3 = true) (h4 : attemptFails r4 = true) :
    (loadChapterStep (loadChapterStep (loadChapterStep
        (initialReaderState sourceName) r1) r2) r3).isAutoSwitching = true ∧
    (loadChapterStep (loadChapterStep (loadChapterStep
        (initialReaderState sourceName) r1) r2) r3).retryCount = 3 ∧
    triggersNextAttempt
      (loadChapterStep (loadChapterStep (initialReaderState sourceName) r1) r2)
      (loadChapterStep (loadChapterStep (loadChapterStep
        (initialReaderState sourceName) r1) r2) r3) ∧
    (loadChapterStep (loadChapterStep (loadChapterStep (loadChapterStep
        (initialReaderState sourceName) r1) r2) r3) r4).chapter = none ∧
    (loadChapterStep (loadChapterStep (loadChapterStep (loadChapterStep
        (initialReaderState sourceName) r1) r2) r3) r4).isAutoSwitching = false ∧
    (loadChapterStep (loadChapterStep (loadChapterStep (loadChapterStep
        (initialReaderState sourceName) r1) r2) r3) r4).loading = false ∧
    (loadChapterStep (loadChapterStep (loadChapterStep (loadChapterStep
        (initialReaderState sourceName) r1) r2) r3) r4).retryCount
      = (loadChapterStep (loadChapterStep (loadChapterStep
        (initialReaderState sourceName) r1) r2) r3).retryCount := by
  have e1 : loadChapterStep (initialReaderState sourceName) r1
      = { retryCount := 1, isAutoSwitching := true,
          currentSourceName := "备用线路 " ++ toString 1,
          chapter := none, loading := true } := by
    rw [loadChapterStep_fail _ _ h1]
    simp [initialReaderState, autoSwitchBranch]
  rw [e1]
  have e2 : loadChapterStep
      ({ retryCount := 1, isAutoSwitching := true,
         currentSourceName := "备用线路 " ++ toString 1,
         chapter := none, loading := true } : ReaderState) r2
      = { retryCount := 2, isAutoSwitching := true,
          currentSourceName := "备用线路 " ++ toString 2,
          chapter := none, loading := true } := by
    rw [loadChapterStep_fail _ _ h2]
    simp [autoSwitchBranch]
  rw [e2]
  have e3 : loadChapterStep
      ({ retryCount := 2, isAutoSwitching := true,
         currentSourceName := "备用线路 " ++ toString 2,
         chapter := none, loading := true } : ReaderState) r3
      = { retryCount := 3, isAutoSwitching := true,
          currentSourceName := "备用线路 " ++ toString 3,
          chapter := none, loading := true } := by
    rw [loadChapterStep_fail _ _ h3]
    simp [autoSwitchBranch]
  rw [e3]
  have e4 : loadChapterStep
      ({ retryCount := 3, isAutoSwitching := true,
         currentSourceName := "备用线路 " ++ toString 3,
         chapter := none, loading := true } : ReaderState) r4
      = { retryCount := 3, isAutoSwitching := false,
          currentSourceName := "备用线路 " ++ toString 3,
          chapter := none, loading := false } := by
    rw [loadChapterStep_fail _ _ h4]
    simp [autoSwitchBranch]
  rw [e4]
  refine ⟨rfl, rfl, by simp [triggersNextAttempt], rfl, rfl, rfl, rfl⟩

/-- Witness for the amended C3 at a concrete input. -/
theorem four_failures_final_failure_witness :
    (loadChapterStep (loadChapterStep (loadChapterStep
        (initialReaderState "") (.reject "a")) (.reject "b"))
        (.reject "c")).isAutoSwitching = true ∧
    (loadChapterStep (loadChapterStep (loadChapterStep
        (initialReaderState "") (.reject "a")) (.reject "b"))
        (.reject "c")).retryCount = 3 ∧
    triggersNextAttempt
      (loadChapterStep (loadChapterStep (initialReaderState "") (.reject "a"))
        (.reject "b"))
      (loadChapterStep (loadChapterStep (loadChapterStep
        (initialReaderState "") (.reject "a")) (.reject "b")) (.reject "c")) ∧
    (loadChapterStep (loadChapterStep (loadChapterStep (loadChapterStep
        (initialReaderState "") (.reject "a")) (.reject "b")) (.reject "c"))
        (.reject "d")).chapter = none ∧
    (loadChapterStep (loadChapterStep (loadChapterStep (loadChapterStep
        (initialReaderState "") (.reject "a")) (.reject "b")) (.reject "c"))
        (.reject "d")).isAutoSwitching = false ∧
    (loadChapterStep (loadChapterStep (loadChapterStep (loadChapterStep
        (initialReaderState "") (.reject "a")) (.reject "b")) (.reject "c"))
        (.reject "d")).loading = false ∧
    (loadChapterStep (loadChapterStep (loadChapterStep (loadChapterStep
        (initialReaderState "") (.reject "a")) (.reject "b")) (.reject "c"))
        (.reject "d")).retryCount
      = (loadChapterStep (loadChapterStep (loadChapterStep
        (initialReaderState "") (.reject "a")) (.reject "b"))
        (.reject "c")).retryCount :=
  four_failures_final_failure "" (.reject "a") (.reject "b") (.reject "c")
    (.reject "d") rfl rfl rfl rfl

/-- Counterexample to claim C9 as stated: on the first fetch failure the
retry count does become 1 and the session enters the switching state, but
the label the code sets is `备用线路 1`, not `fallback-1`. -/
theorem retry_label_cex :
    (loadChapterStep (initialReaderState "智能优选源") (.reject "network")).retryCount
      = 1 ∧
    (loadChapterStep (initialReaderState "智能优选源")
        (.reject "network")).isAutoSwitching = true ∧
    (loadChapterStep (initialReaderState "智能优选源")
        (.reject "network")).currentSourceName = "备用线路 1" ∧
    (loadChapterStep (initialReaderState "智能优选源")
        (.reject "network")).currentSourceName ≠ "fallback-1" := by
  refine ⟨by decide, by decide, by decide, by decide⟩

/-- Claim C9 as amended: on a fetch failure with `retryCount < 3` the count
increases by exactly one, the session enters the switching (retrying) state,
and the label becomes `备用线路 N` with `N` the new attempt count (an
incrementing fallback label, though not the literal string `fallback-N`);
the changed `retryCount` re-triggers the effect, which re-issues a fetch for
the same key after the fixed 1500 ms backoff (the new state has a positive
retry count, so the backoff branch is taken). -/
theorem retry_increment_and_label (s : ReaderState) (r : FetchOutcome)
    (hf : attemptFails r = true) (hr : s.retryCount < 3) :
    (loadChapterStep s r).retryCount = s.retryCount + 1 ∧
    (loadChapterStep s r).isAutoSwitching = true ∧
    (loadChapterStep s r).currentSourceName
      = "备用线路 " ++ toString (s.retryCount + 1) ∧
    triggersNextAttempt s (loadChapterStep s r) ∧
    preFetchDelayMs (loadChapterStep s r) = 1500 := by
  rw [loadChapterStep_fail s r hf]
  split
  all_goals
    simp [autoSwitchBranch, hr, triggersNextAttempt, preFetchDelayMs]

/-- Witness for the amended C9 at a concrete input. -/
theorem retry_increment_and_label_witness :
    (loadChapterStep (initialReaderState "") (.reject "err")).retryCount = 0 + 1 ∧
    (loadChapterStep (initialReaderState "") (.reject "err")).isAutoSwitching = true ∧
    (loadChapterStep (initialReaderState "") (.reject "err")).currentSourceName
      = "备用线路 " ++ toString (0 + 1) ∧
    triggersNextAttempt (initialReaderState "")
      (loadChapterStep (initialReaderState "") (.reject "err")) ∧
    preFetchDelayMs (loadChapterStep (initialReaderState "") (.reject "err")) = 1500 :=
  retry_increment_and_label (initialReaderState "") (.reject "err") rfl (by decide)

/-- Counterexample to claim C4 as stated: on a successful settlement the
cache write runs first (in the `try` block) and the in-flight delete runs
second (in the `finally` block) — the opposite of the claimed order — so
after the first settlement mutation the key is present in BOTH the cache and
the in-flight map at once. -/
theorem cache_written_before_inflight_removed_cex :
    (generateChapterContentSettleOps "NovelA" 0 (.ok "T\nB")).headD (.delInflight "")
      = .setCache "NovelA-0" (parseChapter "NovelA" 0 "T\nB") ∧
    mapHas (applyOp ⟨[], ["NovelA-0"]⟩
        (.setCache "NovelA-0" (parseChapter "NovelA" 0 "T\nB"))).chapterCache
        "NovelA-0" = true ∧
    inflightHas (applyOp ⟨[], ["NovelA-0"]⟩
        (.setCache "NovelA-0" (parseChapter "NovelA" 0 "T\nB"))).activeRequests
        "NovelA-0" = true := by
  refine ⟨by decide, by decide, by decide⟩

/-- Claim C4 as amended: on success the settlement writes the cache first and
removes the key from the in-flight map second, with no suspension point
between the two mutations, so the key is in both maps only inside that
atomic two-step window; once the settlement completes, exclusivity holds —
the key is cached and no longer in flight on success, and in neither map on
failure. -/
theorem settle_order_atomic_window (novelTitle : String) (chapterIndex : Nat)
    (text e : String) (s : CoordState)
    (hc : mapHas s.chapterCache (chapterKey novelTitle chapterIndex) = false)
    (hi : inflightHas s.activeRequests (chapterKey novelTitle chapterIndex) = true) :
    generateChapterContentSettleOps novelTitle chapterIndex (.ok text)
      = [.setCache (chapterKey novelTitle chapterIndex)
           (parseChapter novelTitle chapterIndex text),
         .delInflight (chapterKey novelTitle chapterIndex)] ∧
    mapHas (applyOp s (.setCache (chapterKey novelTitle chapterIndex)
        (parseChapter novelTitle chapterIndex text))).chapterCache
        (chapterKey novelTitle chapterIndex) = true ∧
    inflightHas (applyOp s (.setCache (chapterKey novelTitle chapterIndex)
        (parseChapter novelTitle chapterIndex text))).activeRequests
        (chapterKey novelTitle chapterIndex) = true ∧
    mapHas (generateChapterContentSettle novelTitle chapterIndex (.ok text) s).chapterCache
        (chapterKey novelTitle chapterIndex) = true ∧
    inflightHas
        (generateChapterContentSettle novelTitle chapterIndex (.ok text) s).activeRequests
        (chapterKey novelTitle chapterIndex) = false ∧
    mapHas
        (generateChapterContentSettle novelTitle chapterIndex (.error e) s).chapterCache
        (chapterKey novelTitle chapterIndex) = false ∧
    inflightHas
        (generateChapterContentSettle novelTitle chapterIndex (.error e) s).activeRequests
        (chapterKey novelTitle chapterIndex) = false := by
  refine ⟨rfl, ?_, hi, ?_, ?_, ?_, ?_⟩
  · exact mapHas_mapSet_self _ _ _
  · rw [settle_ok_eq]
    exact mapHas_mapSet_self _ _ _
  · rw [settle_ok_eq]
    exact inflightHas_remove_self _ _
  · rw [settle_error_eq]
    exact hc
  · rw [settle_error_eq]
    exact inflightHas_remove_self _ _

/-- Witness for the amended C4 at a concrete input. -/
theorem settle_order_atomic_window_witness :
    generateChapterContentSettleOps "N" 0 (.ok "T\nB")
      = [.setCache (chapterKey "N" 0) (parseChapter "N" 0 "T\nB"),
         .delInflight (chapterKey "N" 0)] ∧
    mapHas (applyOp ⟨[], ["N-0"]⟩ (.setCache (chapterKey "N" 0)
        (parseChapter "N" 0 "T\nB"))).chapterCache (chapterKey "N" 0) = true ∧
    inflightHas (applyOp ⟨[], ["N-0"]⟩ (.setCache (chapterKey "N" 0)
        (parseChapter "N" 0 "T\nB"))).activeRequests (chapterKey "N" 0) = true ∧
    mapHas (generateChapterContentSettle "N" 0 (.ok "T\nB") ⟨[], ["N-0"]⟩).chapterCache
        (chapterKey "N" 0) = true ∧
    inflightHas
        (generateChapterContentSettle "N" 0 (.ok "T\nB") ⟨[], ["N-0"]⟩).activeRequests
        (chapterKey "N" 0) = false ∧
    mapHas (generateChapterContentSettle "N" 0 (.error "x") ⟨[], ["N-0"]⟩).chapterCache
        (chapterKey "N" 0) = false ∧
    inflightHas
        (generateChapterContentSettle "N" 0 (.error "x") ⟨[], ["N-0"]⟩).activeRequests
        (chapterKey "N" 0) = false :=
  settle_order_atomic_window "N" 0 "T\nB" "x" ⟨[], ["N-0"]⟩ (by decide) (by decide)

/-- Counterexample to claim C7 as stated: queue membership is not checked,
so when all three workers are busy a second immediate `preloadChapter` for
the same key enqueues a second task.  Starting from the module-load state,
three preloads for distinct keys occupy all workers; two back-to-back
preloads for `NovelA-0` then leave TWO queued tasks for that key. -/
theorem duplicate_preload_enqueued_cex :
    (preloadChapter "k" "NovelA" 0 (preloadChapter "k" "NovelA" 0
        (preloadChapter "k" "C" 3 (preloadChapter "k" "B" 2
          (preloadChapter "k" "A" 1 initSchedState))))).preloadQueue
      = [("NovelA", 0), ("NovelA", 0)] ∧
    (preloadChapter "k" "NovelA" 0 (preloadChapter "k" "NovelA" 0
        (preloadChapter "k" "C" 3 (preloadChapter "k" "B" 2
          (preloadChapter "k" "A" 1 initSchedState))))).activeWorkers = 3 := by
  refine ⟨by decide, by decide⟩

/-- Claim C7 as amended: when a worker slot is free and the queue is empty,
an immediate duplicate `preloadChapter` is indeed a no-op — the first call
dequeues and starts its task at once, which synchronously registers the key
in the in-flight map, so the second call hits the skip guard (the queue
stays empty: one executed task, none queued).  A preload for a key that is
already cached or in flight is always skipped.  When all workers are busy
the duplicate IS enqueued (queue membership is never checked), and the
deduplication of the two queued tasks is then only best-effort: a duplicate
whose fetch starts while the first request is still in flight joins it and
causes no second adapter invocation, but if the first request settles with
failure before the duplicate runs, the key has vacated the in-flight map
(and was not cached), so the duplicate's fetch issues a SECOND adapter
invocation for the key. -/
theorem preload_dedup_with_free_worker (apiKey novelTitle : String)
    (chapterIndex : Nat) (s s2 : SchedState) (c : CoordState) (e : String)
    (hkey : apiKey ≠ "")
    (hq : s.preloadQueue = [])
    (hw : s.activeWorkers < CONCURRENCY_LIMIT)
    (hc : mapGet? s.coord.chapterCache (chapterKey novelTitle chapterIndex) = none)
    (hi : inflightHas s.coord.activeRequests (chapterKey novelTitle chapterIndex) = false)
    (hs2 : mapHas s2.coord.chapterCache (chapterKey novelTitle chapterIndex) = true
        ∨ inflightHas s2.coord.activeRequests (chapterKey novelTitle chapterIndex) = true)
    (hstart : (generateChapterContentStart apiKey novelTitle chapterIndex c).1
        = .started) :
    inflightHas (preloadChapter apiKey novelTitle chapterIndex s).coord.activeRequests
        (chapterKey novelTitle chapterIndex) = true ∧
    (preloadChapter apiKey novelTitle chapterIndex s).preloadQueue = [] ∧
    preloadChapter apiKey novelTitle chapterIndex
        (preloadChapter apiKey novelTitle chapterIndex s)
      = preloadChapter apiKey novelTitle chapterIndex s ∧
    preloadChapter apiKey novelTitle chapterIndex s2 = s2 ∧
    adapterInvoked (generateChapterContentStart apiKey novelTitle chapterIndex
        (generateChapterContentStart apiKey novelTitle chapterIndex c).2).1
      = false ∧
    adapterInvoked (generateChapterContentStart apiKey novelTitle chapterIndex
        (generateChapterContentSettle novelTitle chapterIndex (.error e)
          (generateChapterContentStart apiKey novelTitle chapterIndex c).2)).1
      = true := by
  have hcb : mapHas s.coord.chapterCache (chapterKey novelTitle chapterIndex) = false :=
    (mapHas_false_iff _ _).mpr hc
  have hfirst : preloadChapter apiKey novelTitle chapterIndex s
      = { coord := { chapterCache := s.coord.chapterCache,
                     activeRequests :=
                       s.coord.activeRequests ++ [chapterKey novelTitle chapterIndex] },
          preloadQueue := [],
          activeWorkers := s.activeWorkers + 1 } := by
    unfold preloadChapter
    rw [hcb, hi]
    simp only [Bool.or_self, Bool.false_eq_true, if_false]
    unfold processQueue
    rw [hq]
    simp only [List.nil_append]
    rw [if_neg (Nat.not_le.mpr hw)]
    rw [start_new apiKey novelTitle chapterIndex s.coord hkey hc hi]
  have hdup : adapterInvoked (generateChapterContentStart apiKey novelTitle chapterIndex
        (generateChapterContentStart apiKey novelTitle chapterIndex c).2).1 = false ∧
      adapterInvoked (generateChapterContentStart apiKey novelTitle chapterIndex
        (generateChapterContentSettle novelTitle chapterIndex (.error e)
          (generateChapterContentStart apiKey novelTitle chapterIndex c).2)).1
        = true := by
    rcases hmg : mapGet? c.chapterCache (chapterKey novelTitle chapterIndex) with _ | ch
    · by_cases hih : inflightHas c.activeRequests (chapterKey novelTitle chapterIndex) = true
      · rw [start_joined apiKey novelTitle chapterIndex c hkey hmg hih] at hstart
        simp at hstart
      · have hif : inflightHas c.activeRequests (chapterKey novelTitle chapterIndex)
            = false := by simpa using hih
        rw [start_new apiKey novelTitle chapterIndex c hkey hmg hif]
        constructor
        · show adapterInvoked (generateChapterContentStart apiKey novelTitle chapterIndex
            ⟨c.chapterCache,
             c.activeRequests ++ [chapterKey novelTitle chapterIndex]⟩).1 = false
          rw [start_joined apiKey novelTitle chapterIndex
            ⟨c.chapterCache, c.activeRequests ++ [chapterKey novelTitle chapterIndex]⟩
            hkey hmg (inflightHas_append_self _ _)]
          rfl
        · show adapterInvoked (generateChapterContentStart apiKey novelTitle chapterIndex
            ⟨c.chapterCache,
             inflightRemove (c.activeRequests ++ [chapterKey novelTitle chapterIndex])
               (chapterKey novelTitle chapterIndex)⟩).1 = true
          rw [start_new apiKey novelTitle chapterIndex
            ⟨c.chapterCache,
             inflightRemove (c.activeRequests ++ [chapterKey novelTitle chapterIndex])
               (chapterKey novelTitle chapterIndex)⟩
            hkey hmg (inflightHas_remove_self _ _)]
          rfl
    · rw [start_cacheHit apiKey novelTitle chapterIndex c ch hkey hmg] at hstart
      simp at hstart
  refine ⟨?_, ?_, ?_, ?_, hdup.1, hdup.2⟩
  · rw [hfirst]
    exact inflightHas_append_self _ _
  · rw [hfirst]
  · rw [hfirst]
    unfold preloadChapter
    rw [inflightHas_append_self]
    simp
  · rcases hs2 with h | h
    · unfold preloadChapter
      rw [h]
      simp
    · unfold preloadChapter
      rw [h]
      simp

/-- Witness for the amended C7 at a concrete input. -/
theorem preload_dedup_with_free_worker_witness :
    inflightHas (preloadChapter "k" "N" 0 initSchedState).coord.activeRequests
        (chapterKey "N" 0) = true ∧
    (preloadChapter "k" "N" 0 initSchedState).preloadQueue = [] ∧
    preloadChapter "k" "N" 0 (preloadChapter "k" "N" 0 initSchedState)
      = preloadChapter "k" "N" 0 initSchedState ∧
    preloadChapter "k" "N" 0 ⟨⟨[], ["N-0"]⟩, [], 0⟩ = ⟨⟨[], ["N-0"]⟩, [], 0⟩ ∧
    adapterInvoked (generateChapterContentStart "k" "N" 0
        (generateChapterContentStart "k" "N" 0 ⟨[], []⟩).2).1 = false ∧
    adapterInvoked (generateChapterContentStart "k" "N" 0
        (generateChapterContentSettle "N" 0 (.error "err")
          (generateChapterContentStart "k" "N" 0 ⟨[], []⟩).2)).1 = true :=
  preload_dedup_with_free_worker "k" "N" 0 initSchedState ⟨⟨[], ["N-0"]⟩, [], 0⟩
    ⟨[], []⟩ "err" (by decide) rfl (by decide) rfl rfl (Or.inr (by decide)) (by decide)

/-- Claim C8: from the module-load state, under any interleaving of preload
requests, task completions, foreground fetch starts and settlements, the
`activeWorkers` counter never exceeds `CONCURRENCY_LIMIT = 3`; each
concurrently executing preload-originated adapter call occupies exactly one
worker slot (a task only runs between the increment in `processQueue` and
the decrement in its `finally`), so at most three such calls execute at any
instant regardless of queue length.  Moreover a foreground fetch step is
enabled at every state — it is never gated by the worker pool. -/
theorem preload_worker_bound (apiKey novelTitle : String) (chapterIndex : Nat)
    (s : SchedState)
    (h : Relation.ReflTransGen (SchedStep apiKey) initSchedState s) :
    s.activeWorkers ≤ CONCURRENCY_LIMIT ∧
    SchedStep apiKey s
      { s with coord :=
          (generateChapterContentStart apiKey novelTitle chapterIndex s.coord).2 } := by
  refine ⟨?_, SchedStep.fgFetch novelTitle chapterIndex s⟩
  induction h with
  | refl => simp [initSchedState, CONCURRENCY_LIMIT]
  | tail hpre hstep ih =>
      cases hstep with
      | preload nt ci t =>
          unfold preloadChapter
          split
          · exact ih
          · exact processQueue_workers_le _ _ ih
      | complete t ht =>
          unfold taskComplete
          refine processQueue_workers_le _ _ ?_
          simp only [CONCURRENCY_LIMIT] at ih ⊢
          omega
      | fgFetch nt ci t => exact ih
      | settle nt ci r t => exact ih

/-- Witness for C8 at a concrete reachable state (one preload step after
module load). -/
theorem preload_worker_bound_witness :
    (preloadChapter "k" "N" 0 initSchedState).activeWorkers ≤ CONCURRENCY_LIMIT ∧
    SchedStep "k" (preloadChapter "k" "N" 0 initSchedState)
      { preloadChapter "k" "N" 0 initSchedState with coord :=
          (generateChapterContentStart "k" "N" 0
            (preloadChapter "k" "N" 0 initSchedState).coord).2 } :=
  preload_worker_bound "k" "N" 0 (preloadChapter "k" "N" 0 initSchedState)
    (Relation.ReflTransGen.single (SchedStep.preload "N" 0 initSchedState))

end AiNovel
